import Mathlib

/-!
Verification of the Planet feed-validation pipeline
(`.github/scripts/validate_feed.py`, `.github/scripts/format_comment.py`,
`.github/scripts/get_labels.py`).

The Python sources are shallowly embedded as executable Lean definitions.
Python string operations (`lower`, `strip`, `in`, slicing, `join`, `upper`)
are modelled by structurally recursive functions over `String.data`, so that
everything evaluates inside the kernel.  External library calls (HTTP fetch
via `requests`, feed parsing via `feedparser`, URL parsing via `urllib`,
INI reading via `configparser`) are modelled as oracle inputs: the embedded
functions receive the data those libraries would have produced and perform
exactly the branching of the source.  Machine integers are `Nat`; the one
arithmetic subtlety, `int((python_count / len(entries)) * 100)`, is modelled
as truncating natural division, which is exact for the sample sizes
(at most 10 entries) used by the pipeline.
-/

namespace Planet

/-- Python `s.lower()` (ASCII case folding, as used on URLs and titles). -/
def pyLower (s : String) : String := ⟨s.data.map Char.toLower⟩

/-- Python `s.upper()` (ASCII). -/
def pyUpper (s : String) : String := ⟨s.data.map Char.toUpper⟩

/-- ASCII whitespace recognised by Python `str.strip()`. -/
def pySpaceChar (c : Char) : Bool :=
  c = ' ' || c = '\t' || c = '\n' || c = '\r' || c = '\x0b' || c = '\x0c'

/-- Python `s.strip()`: drop leading and trailing whitespace. -/
def pyStrip (s : String) : String :=
  ⟨((s.data.dropWhile pySpaceChar).reverse.dropWhile pySpaceChar).reverse⟩

/-- Python `s[:n]` on a string: the first `n` characters. -/
def pyTake (s : String) (n : Nat) : String := ⟨s.data.take n⟩

/-- Occurrence of `pat` as a contiguous sublist (helper for Python `in`). -/
def containsSub (pat : List Char) : List Char → Bool
  | [] => pat.isEmpty
  | c :: t => pat.isPrefixOf (c :: t) || containsSub pat t

/-- Python `pat in s` for strings. -/
def strContains (s pat : String) : Bool :=
  pat.data.isEmpty || containsSub pat.data s.data

/-- Python `sep.join(parts)`. -/
def pyJoin (sep : String) : List String → String
  | [] => ""
  | [x] => x
  | x :: y :: xs => x ++ sep ++ pyJoin sep (y :: xs)

/-- Concatenation of a list of strings (Python repeated `+=`). -/
def strConcat (l : List String) : String := l.foldl (· ++ ·) ""

/-! ## Data model

A `ValidationResult` is a JSON-like dictionary; every field is wrapped in
`Option`, with `none` meaning the key is absent from the dictionary. -/

structure VResult where
  passed : Option Bool := none
  message : Option String := none
  status_code : Option Nat := none
  final_url : Option (Option String) := none
  feed_type : Option (Option String) := none
  entries : Option Nat := none
  is_duplicate : Option Bool := none
  existing_name : Option (Option String) := none
  python_score : Option Nat := none
  language : Option (Option String) := none
  sample_titles : Option (List String) := none
  warnings : Option (List String) := none
  deriving Repr, DecidableEq

/-- The `result['validations']` dictionary.  A `none` entry models an absent
key.  The key called `structure` in the Python dictionaries is named
`structure_check` here because `structure` is a Lean keyword. -/
structure Validations where
  parsing : Option VResult := none
  url_format : Option VResult := none
  accessibility : Option VResult := none
  structure_check : Option VResult := none
  duplicate : Option VResult := none
  content : Option VResult := none
  deriving Repr, DecidableEq

/-- Fields extracted from the issue body by `parse_issue_body` (a `none`
field models a key absent from the returned dictionary). -/
structure IssueData where
  feed_url : Option String := none
  name : Option String := none
  request_type : Option String := none
  old_url : Option String := none
  deriving Repr, DecidableEq

/-- One section of `config.ini` as seen through `configparser`: the section
name and, if present, the value of its `name` key. -/
abbrev ConfigSection := String × Option String

/-- Result of `urllib.parse.urlparse` on the feed URL (oracle input):
either the parsed components used by `validate_url_format`, or an
exception message. -/
inductive UrlParseOutcome where
  | ok (scheme : String) (netloc : String)
  | error (msg : String)
  deriving Repr, DecidableEq

/-- Outcome of the `requests.get` call in `check_feed_accessibility`
(oracle input), covering each `except` arm of the source. -/
inductive HttpResult where
  | response (status : Nat) (respUrl : String)
  | timedOut
  | connectionError
  | tooManyRedirects
  | otherError (msg : String)
  deriving Repr, DecidableEq

/-- One feed entry as seen through `feedparser`; `getattr(entry, 'title', '')`
defaults are baked in as empty strings. -/
structure FeedEntry where
  title : String := ""
  summary : String := ""
  deriving Repr, DecidableEq

/-- The feed-level metadata object (`feed.feed`). -/
structure FeedMeta where
  language : Option String := none
  deriving Repr, DecidableEq

/-- A parse result of `feedparser.parse` (oracle input).  `none` in
`bozo_exception`, `feedMeta` or `entries` models a missing attribute;
a `version` of `none` or `""` models an undetected feed format. -/
structure Feed where
  bozo : Bool := false
  bozo_exception : Option String := none
  version : Option String := none
  feedMeta : Option FeedMeta := none
  entries : Option (List FeedEntry) := none
  deriving Repr, DecidableEq

/-! ## validate_feed.py -/

/-- `validate_url_format` (validate_feed.py lines 68-93), over the oracle
outcome of `urlparse`. -/
def validate_url_format (outcome : UrlParseOutcome) : Bool × String :=
  match outcome with
  | .ok scheme netloc =>
    if scheme = "" then
      (false, "URL missing scheme (http:// or https://)")
    else if scheme ≠ "http" ∧ scheme ≠ "https" then
      (false, "Invalid scheme \x27" ++ scheme ++ "\x27 (must be http or https)")
    else if netloc = "" then
      (false, "URL missing domain/hostname")
    else
      (true, "Valid URL format")
  | .error e => (false, "URL parsing error: " ++ e)

/-- `check_feed_accessibility` (validate_feed.py lines 96-134), over the
oracle outcome of `requests.get`.  Returns
`(is_accessible, status_code, final_url, message)`. -/
def check_feed_accessibility (url : String) (timeoutSecs : Nat) (r : HttpResult) :
    Bool × Nat × Option String × String :=
  match r with
  | .response status respUrl =>
    let final_url : Option String := if respUrl ≠ url then some respUrl else none
    if status = 200 then
      let redirect_msg := match final_url with
        | some f => " (redirected to " ++ f ++ ")"
        | none => ""
      (true, status, final_url, "Feed accessible" ++ redirect_msg)
    else
      (false, status, none, "HTTP " ++ toString status)
  | .timedOut =>
    (false, 0, none, "Request timed out after " ++ toString timeoutSecs ++ " seconds")
  | .connectionError => (false, 0, none, "Unable to connect to feed URL")
  | .tooManyRedirects => (false, 0, none, "Too many redirects")
  | .otherError msg => (false, 0, none, "Error: " ++ msg)

/-- `validate_feed_structure` (validate_feed.py lines 137-176), over the
oracle feed returned by `feedparser.parse`.  Returns
`(is_valid, feed_type, entry_count, message)`. -/
def validate_feed_structure (feed : Feed) : Bool × Option String × Nat × String :=
  if feed.bozo then
    let error_msg := match feed.bozo_exception with
      | some e => e
      | none => "Unknown parsing error"
    (false, none, 0, "Feed parsing error: " ++ error_msg)
  else if feed.version = none ∨ feed.version = some "" then
    (false, none, 0, "Unable to detect feed format (not RSS or Atom)")
  else
    let entry_count := match feed.entries with
      | some es => es.length
      | none => 0
    if entry_count = 0 then
      (false, feed.version, 0, "Feed has no entries")
    else
      let v := feed.version.getD ""
      let feed_type_name :=
        if v = "rss10" then "RSS 1.0"
        else if v = "rss20" then "RSS 2.0"
        else if v = "rss" then "RSS"
        else if v = "atom" then "Atom"
        else if v = "atom10" then "Atom 1.0"
        else if v = "atom03" then "Atom 0.3"
        else v
      (true, feed.version, entry_count, "Valid " ++ feed_type_name ++ " feed")

/-- `normalize_url` (validate_feed.py lines 179-192): lowercase, strip
whitespace, drop one trailing slash. -/
def normalize_url (url : String) : String :=
  let u := pyStrip (pyLower url)
  if u.data.getLast? = some '/' then ⟨u.data.dropLast⟩ else u

/-- The test `request_type and 'edit' in request_type.lower()` used twice in
`check_duplicate_in_config` (Python truthiness of the string included). -/
def isEditRequest (request_type : String) : Bool :=
  request_type ≠ "" && strContains (pyLower request_type) "edit"

/-- The duplicate-scanning loop of `check_duplicate_in_config`
(validate_feed.py lines 216-230): first non-`Planet` section whose
normalized name equals `normalized_new` decides the result. -/
def scanSections (request_type : String) (normalized_new : String) :
    List ConfigSection → Option (Bool × Bool × Option String × String)
  | [] => none
  | sec :: rest =>
    if sec.1 = "Planet" then scanSections request_type normalized_new rest
    else if normalize_url sec.1 = normalized_new then
      let name := sec.2.getD "Unknown"
      if isEditRequest request_type then
        some (true, true, some name, "Feed exists as \x27" ++ name ++ "\x27 (OK for edit)")
      else
        some (false, true, some name, "Feed already exists as \x27" ++ name ++ "\x27")
    else scanSections request_type normalized_new rest

/-- `check_duplicate_in_config` (validate_feed.py lines 195-253) over the
sections read from `config.ini`.  Returns
`(check_passed, is_duplicate, existing_name, message)`.  The `except` arms
for unreadable config files are not modelled (the config contents are an
oracle input). -/
def check_duplicate_in_config (url : String) (config : List ConfigSection)
    (request_type : String) (old_url : Option String) :
    Bool × Bool × Option String × String :=
  let normalized_new := normalize_url url
  match scanSections request_type normalized_new config with
  | some r => r
  | none =>
    if isEditRequest request_type ∧ old_url.getD "" ≠ "" then
      let normalized_old := normalize_url (old_url.getD "")
      let old_found := config.any fun sec =>
        sec.1 ≠ "Planet" && normalize_url sec.1 = normalized_old
      if ¬ old_found then
        (false, false, none,
          "Old feed URL \x27" ++ old_url.getD "" ++ "\x27 not found in config")
      else
        (true, false, none, "No duplicate found")
    else
      (true, false, none, "No duplicate found")

/-- The keyword list of `analyze_feed_content` (validate_feed.py
lines 267-271). -/
def python_keywords : List String :=
  ["python", "django", "flask", "fastapi", "pytest", "pip",
   "pandas", "numpy", "asyncio", "pypi", "virtualenv", "conda",
   "jupyter", "matplotlib", "scikit", "tensorflow", "pytorch"]

/-- The per-entry keyword test of `analyze_feed_content` (lines 294-300):
any keyword occurs in the lower-cased title-plus-summary text. -/
def entryMatches (e : FeedEntry) : Bool :=
  let content := pyLower (e.title ++ " " ++ e.summary)
  python_keywords.any fun keyword => strContains content keyword

/-- Language hint extraction in `analyze_feed_content` (lines 282-284). -/
def feedLanguage (feed : Feed) : Option String :=
  match feed.feedMeta with
  | some m => m.language
  | none => none

/-- The body of the entry loop in `analyze_feed_content` (validate_feed.py
lines 294-306): bump the keyword-match count and collect up to 5 non-empty
titles, each truncated to 100 characters. -/
def contentStep (acc : Nat × List String) (e : FeedEntry) : Nat × List String :=
  let python_count := if entryMatches e then acc.1 + 1 else acc.1
  let sample_titles :=
    if e.title ≠ "" ∧ acc.2.length < 5 then acc.2 ++ [pyTake e.title 100]
    else acc.2
  (python_count, sample_titles)

/-- `analyze_feed_content` (validate_feed.py lines 256-320) over the oracle
feed.  Returns `(python_score, language_hint, sample_titles, warnings)`.
The score `int((python_count / len(entries)) * 100)` is modelled as
truncating natural division `python_count * 100 / len`; for every
`len ≤ 10` (the pipeline always samples at most 10 entries) the Python
float expression and the exact truncation give identical results. -/
def analyze_feed_content (feed : Feed) (sample_size : Nat) :
    Nat × Option String × List String × List String :=
  if feed.bozo ∨ feed.entries = none then
    (0, none, [], ["Unable to parse feed for content analysis"])
  else
    let language := feedLanguage feed
    let entries := (feed.entries.getD []).take sample_size
    if entries = [] then
      (0, language, [], ["Feed has no entries to analyze"])
    else
      let counts := entries.foldl contentStep ((0 : Nat), ([] : List String))
      let python_score := counts.1 * 100 / entries.length
      let warnings :=
        if python_score < 30 then
          ["Low Python content detected - feed may not be Python-specific"]
        else if python_score < 60 then
          ["Consider filtering your feed by Python tag/category for better relevance"]
        else []
      (python_score, language, counts.2, warnings)

/-- `validations.get(check, {}).get('passed', False)`. -/
def getPassed (o : Option VResult) : Bool := ((o.getD {}).passed).getD false

/-- The `has_critical_failure` test of `determine_overall_status`
(validate_feed.py lines 337-341). -/
def has_critical_failure (validations : Validations) : Bool :=
  !(getPassed validations.url_format) ||
  !(getPassed validations.accessibility) ||
  !(getPassed validations.structure_check)

/-- `validations.get('duplicate', {}).get('is_duplicate', False)`. -/
def getIsDuplicate (validations : Validations) : Bool :=
  ((validations.duplicate.getD {}).is_duplicate).getD false

/-- `validations.get('content', {}).get('python_score', 0)`. -/
def getPythonScore (validations : Validations) : Nat :=
  ((validations.content.getD {}).python_score).getD 0

/-- `determine_overall_status` (validate_feed.py lines 323-370).  Returns
`(overall_status, labels, recommendations)`. -/
def determine_overall_status (validations : Validations) :
    String × List String × List String :=
  if has_critical_failure validations then
    ("fail", ["validation-failed"],
     ["Please fix the critical errors above before resubmitting"])
  else
    let labels : List String := []
    let recommendations : List String := []
    let labels := if getIsDuplicate validations then labels ++ ["duplicate-feed"] else labels
    let recommendations :=
      if getIsDuplicate validations then
        recommendations ++
          ["This feed appears to already exist - please verify this is an edit request"]
      else recommendations
    let python_score := getPythonScore validations
    if python_score < 30 then
      ("warning", labels ++ ["validation-warning"],
       recommendations ++
         ["Feed appears to have low Python-specific content",
          "Consider providing a filtered feed URL (by tag/category)"])
    else if python_score < 60 then
      ("warning", labels ++ ["validation-warning"],
       recommendations ++
         ["Feed has moderate Python content - consider filtering by Python tag/category"])
    else
      let labels := if labels = [] then ["validation-passed"] else labels
      ("pass", labels, recommendations)

/-- The external inputs consumed by one run of `validate_feed.main`:
what `urlparse`, `requests.get`, the two `feedparser.parse` calls and
`configparser` would return. -/
structure World where
  urlparse : UrlParseOutcome
  http : HttpResult
  structFeed : Feed
  config : List ConfigSection
  contentFeed : Feed
  deriving Repr, DecidableEq

/-- The JSON result record written by `validate_feed.main`
(validate_feed.py lines 390-399). -/
structure AggregateResult where
  success : Bool := true
  feed_url : String := ""
  feed_name : String := "Unknown"
  request_type : String := "Add new feed"
  validations : Validations := {}
  overall_status : String := "unknown"
  labels : List String := []
  recommendations : List String := []
  deriving Repr, DecidableEq

/-- The result-building part of `validate_feed.main` (validate_feed.py
lines 382-482): extract fields with their defaults, run the dependency-gated
validations, and aggregate. -/
def buildResult (issue_data : IssueData) (w : World) : AggregateResult :=
  let feed_url := issue_data.feed_url.getD ""
  let feed_name := issue_data.name.getD "Unknown"
  let request_type := issue_data.request_type.getD "Add new feed"
  let old_url := issue_data.old_url
  if feed_url = "" then
    { success := false
      feed_url := feed_url
      feed_name := feed_name
      request_type := request_type
      validations :=
        { parsing := some { passed := some false
                            message := some "Unable to extract feed URL from issue body" } }
      overall_status := "fail"
      labels := ["validation-failed"]
      recommendations := ["Please ensure the feed URL field is filled in the issue template"] }
  else
    let urlRes := validate_url_format w.urlparse
    let url_valid := urlRes.1
    let vUrl : VResult := { passed := some url_valid, message := some urlRes.2 }
    let vAcc : VResult :=
      if url_valid then
        let acc := check_feed_accessibility feed_url 10 w.http
        { passed := some acc.1
          status_code := some acc.2.1
          final_url := some acc.2.2.1
          message := some acc.2.2.2 }
      else
        { passed := some false
          status_code := some 0
          message := some "Skipped (invalid URL format)" }
    let vStruct : VResult :=
      if url_valid ∧ vAcc.passed.getD false then
        let st := validate_feed_structure w.structFeed
        { passed := some st.1
          feed_type := some st.2.1
          entries := some st.2.2.1
          message := some st.2.2.2 }
      else
        { passed := some false
          message := some "Skipped (feed not accessible)" }
    let dup := check_duplicate_in_config feed_url w.config request_type old_url
    let vDup : VResult :=
      { passed := some dup.1
        is_duplicate := some dup.2.1
        existing_name := some dup.2.2.1
        message := some dup.2.2.2 }
    let vContent : VResult :=
      if vStruct.passed.getD false then
        let c := analyze_feed_content w.contentFeed 10
        { python_score := some c.1
          language := some c.2.1
          sample_titles := some c.2.2.1
          warnings := some c.2.2.2 }
      else
        { python_score := some 0
          warnings := some ["Skipped (feed structure invalid)"] }
    let validations : Validations :=
      { url_format := some vUrl
        accessibility := some vAcc
        structure_check := some vStruct
        duplicate := some vDup
        content := some vContent }
    let agg := determine_overall_status validations
    { success := true
      feed_url := feed_url
      feed_name := feed_name
      request_type := request_type
      validations := validations
      overall_status := agg.1
      labels := agg.2.1
      recommendations := agg.2.2 }

/-- The process behaviour of `validate_feed.main` (validate_feed.py
lines 373-492): `argparse` terminates the process with status 2 when a
required argument is missing (CPython `ArgumentParser.error` semantics);
otherwise the result is built and written, exiting 0 on a successful write
and 1 when writing raises.  Returns `(exit_code, written_result)`. -/
def validate_feed_run (argsGiven : Bool) (issue_data : IssueData) (w : World)
    (writeOk : Bool) : Nat × Option AggregateResult :=
  if ¬ argsGiven then (2, none)
  else
    let result := buildResult issue_data w
    if writeOk then (0, some result) else (1, some result)

/-! ## format_comment.py -/

/-- `get_emoji` (format_comment.py lines 14-27). -/
def get_emoji (passedArg : Bool) (warning : Bool) : String :=
  if warning then "⚠️" else if passedArg then "✅" else "❌"

/-- `get_status_emoji` (format_comment.py lines 30-44). -/
def get_status_emoji (status : String) : String :=
  if status = "pass" then "✅"
  else if status = "warning" then "⚠️"
  else if status = "fail" then "❌"
  else "❓"

/-- `format_url_validation` (format_comment.py lines 47-52). -/
def format_url_validation (v : VResult) : String :=
  get_emoji (v.passed.getD false) false ++ " **URL Format:** " ++ v.message.getD "Unknown"

/-- `format_accessibility_validation` (format_comment.py lines 55-65). -/
def format_accessibility_validation (v : VResult) : String :=
  let emoji := get_emoji (v.passed.getD false) false
  let message := v.message.getD "Unknown"
  let status_code := v.status_code.getD 0
  if status_code > 0 then
    emoji ++ " **Accessibility:** " ++ message ++ " (HTTP " ++ toString status_code ++ ")"
  else
    emoji ++ " **Accessibility:** " ++ message

/-- `format_structure_validation` (format_comment.py lines 68-79). -/
def format_structure_validation (v : VResult) : String :=
  let emoji := get_emoji (v.passed.getD false) false
  let message := v.message.getD "Unknown"
  let entries := v.entries.getD 0
  if v.passed.getD false ∧ entries > 0 then
    emoji ++ " **Feed Structure:** " ++ message ++ " (" ++ toString entries ++ " entries)"
  else
    emoji ++ " **Feed Structure:** " ++ message

/-- `format_duplicate_validation` (format_comment.py lines 82-95).
`existing_name` is truthy in Python exactly when the key holds a non-empty
string. -/
def format_duplicate_validation (v : VResult) : String :=
  let is_duplicate := v.is_duplicate.getD false
  let emoji := get_emoji (v.passed.getD false) is_duplicate
  let existing_name := (v.existing_name.getD none).getD ""
  if is_duplicate ∧ existing_name ≠ "" then
    emoji ++ " **Duplicate Check:** Feed already exists as \"" ++ existing_name ++ "\""
  else
    emoji ++ " **Duplicate Check:** " ++ v.message.getD "Unknown"

/-- `format_content_validation` (format_comment.py lines 98-121). -/
def format_content_validation (v : VResult) : String :=
  let python_score := v.python_score.getD 0
  let warnings := v.warnings.getD []
  let emoji := if python_score ≥ 60 then "✅" else "⚠️"
  let status_text :=
    if python_score ≥ 60 then "Good" else if python_score ≥ 30 then "Moderate" else "Low"
  let base := emoji ++ " **Python Content:** " ++ toString python_score ++
    "% Python keywords detected (" ++ status_text ++ ")"
  if warnings ≠ [] ∧ warnings.head? ≠ some "Skipped (feed structure invalid)" then
    base ++ strConcat ((warnings.take 2).map fun warning => "\n   - ⚠️  " ++ warning)
  else base

/-- The fixed heading of the sample-titles section. -/
def sampleHeader : String := "\n### 📝 Sample Article Titles\n\n"

/-- The numbered lines of `format_sample_titles`: one line per title, at
most 5 titles (`titles[:5]`, enumerated from 1). -/
def sample_lines (titles : List String) : List String :=
  ((titles.take 5).enumFrom 1).map fun p => toString p.1 ++ ". " ++ p.2 ++ "\n"

/-- `format_sample_titles` (format_comment.py lines 124-133). -/
def format_sample_titles (titles : List String) : String :=
  if titles = [] then ""
  else sampleHeader ++ strConcat (sample_lines titles)

/-- `format_recommendations` (format_comment.py lines 136-145). -/
def format_recommendations (recommendations : List String) : String :=
  if recommendations = [] then ""
  else
    "### 💡 Recommendations\n\n" ++
      strConcat (recommendations.map fun r => "- " ++ r ++ "\n") ++ "\n"

/-- UTF-8 bytes of one character (for `urllib.parse.quote`). -/
def utf8Bytes (c : Char) : List Nat :=
  let n := c.toNat
  if n < 128 then [n]
  else if n < 2048 then [192 + n / 64, 128 + n % 64]
  else if n < 65536 then [224 + n / 4096, 128 + n / 64 % 64, 128 + n % 64]
  else [240 + n / 262144, 128 + n / 4096 % 64, 128 + n / 64 % 64, 128 + n % 64]

/-- Upper-case hexadecimal digit. -/
def hexDigit (n : Nat) : Char :=
  if n < 10 then Char.ofNat (48 + n) else Char.ofNat (55 + n)

/-- Percent-encoding of one byte by `urllib.parse.quote` with `safe=''`:
unreserved bytes (ASCII letters, digits, `-`, `.`, `_`, `~`) stay, all
others become `%XX`. -/
def quoteByte (n : Nat) : List Char :=
  if (48 ≤ n ∧ n ≤ 57) ∨ (65 ≤ n ∧ n ≤ 90) ∨ (97 ≤ n ∧ n ≤ 122) ∨
      n = 45 ∨ n = 46 ∨ n = 95 ∨ n = 126 then
    [Char.ofNat n]
  else
    ['%', hexDigit (n / 16), hexDigit (n % 16)]

/-- `urllib.parse.quote(s, safe='')` over the UTF-8 encoding of `s`. -/
def pyQuote (s : String) : String :=
  ⟨(s.data.flatMap utf8Bytes).flatMap quoteByte⟩

/-- The comment assembled by `generate_comment` (format_comment.py
lines 148-228), one list element per `comment +=` of the source, in
source order; the rendered comment is their concatenation. -/
def generate_comment_pieces (result : AggregateResult) : List String :=
  let feed_url := result.feed_url
  let feed_name := result.feed_name
  let request_type := result.request_type
  let overall_status := result.overall_status
  let validations := result.validations
  let recommendations := result.recommendations
  let labels := result.labels
  ["## 🔍 Feed Validation Results\n\n",
   "**Feed URL:** `" ++ feed_url ++ "`\n",
   "**Feed Name:** " ++ feed_name ++ "\n",
   "**Request Type:** " ++ request_type ++ "\n\n",
   "### Validation Checks\n\n"]
  ++ (match validations.url_format with
      | some v => [format_url_validation v ++ "\n"]
      | none => [])
  ++ (match validations.accessibility with
      | some v => [format_accessibility_validation v ++ "\n"]
      | none => [])
  ++ (match validations.structure_check with
      | some v => [format_structure_validation v ++ "\n"]
      | none => [])
  ++ (match validations.duplicate with
      | some v => [format_duplicate_validation v ++ "\n"]
      | none => [])
  ++ (match validations.content with
      | some v => [format_content_validation v ++ "\n"]
      | none => [])
  ++ ["\n---\n\n",
      "### " ++ get_status_emoji overall_status ++ " Overall Status: " ++
        pyUpper overall_status ++ "\n\n"]
  ++ (if recommendations ≠ [] then [format_recommendations recommendations] else [])
  ++ (let sample_titles := ((validations.content.getD {}).sample_titles).getD []
      if sample_titles ≠ [] ∧ overall_status ≠ "fail" then
        [format_sample_titles sample_titles]
      else [])
  ++ ["\n---\n\n",
      "### 📋 Next Steps\n\n"]
  ++ (if overall_status = "fail" then
        ["- ❌ Please fix the errors above and update your issue\n"]
      else if overall_status = "warning" then
        ["- ⚠️ Review the warnings above\n",
         "- ✅ A maintainer will review your submission\n"]
      else
        ["- ✅ Your feed looks good!\n",
         "- 👀 A maintainer will review and add your feed\n"])
  ++ ["\n**Additional Validation:** [W3C Feed Validator](https://validator.w3.org/feed/check.cgi?url=" ++
        pyQuote feed_url ++ ")\n\n",
      "---\n\n",
      "*🤖 Automated validation • Labels: `" ++
        (if labels ≠ [] then pyJoin ", " labels else "none") ++ "`*\n",
      "*Maintainers will manually review Python-specific content and English language requirements.*\n"]

/-- `generate_comment` (format_comment.py lines 148-228). -/
def generate_comment (result : AggregateResult) : String :=
  strConcat (generate_comment_pieces result)

/-- Outcome of reading and JSON-decoding an input file (oracle input for
the `try` blocks of `format_comment.main` and `get_labels.main`). -/
inductive ReadJsonOutcome where
  | fileNotFound
  | invalidJson
  | otherError (msg : String)
  | ok (r : AggregateResult)
  deriving Repr, DecidableEq

/-- The process behaviour of `format_comment.main` (format_comment.py
lines 231-262): `argparse` exits with status 2 when a required argument is
missing (CPython semantics); otherwise exit 0 on success and 1 on a missing
input file, malformed JSON, or any other exception (including a failing
write of the output file). -/
def format_comment_run (argsGiven : Bool) (read : ReadJsonOutcome)
    (writeOk : Bool) : Nat :=
  if ¬ argsGiven then 2
  else
    match read with
    | .fileNotFound => 1
    | .invalidJson => 1
    | .otherError _ => 1
    | .ok _ => if writeOk then 0 else 1

/-! ## get_labels.py -/

/-- The process behaviour of `get_labels.main` (get_labels.py lines 11-36):
exit 1 when no file argument is given (`len(sys.argv) < 2`) or when reading
or decoding fails; otherwise print the comma-joined labels (nothing when
the list is empty) and exit 0.  Returns `(exit_code, printed_line)`. -/
def get_labels_run (argv : List String) (read : ReadJsonOutcome) :
    Nat × Option String :=
  if argv.length < 2 then (1, none)
  else
    match read with
    | .fileNotFound => (1, none)
    | .invalidJson => (1, none)
    | .otherError _ => (1, none)
    | .ok r =>
      if r.labels ≠ [] then (0, some (pyJoin "," r.labels)) else (0, none)

/-! ## Helper lemmas -/

/-- The first component of the content fold counts keyword-matching
entries. -/
theorem foldl_contentStep_count (es : List FeedEntry) (n : Nat) (ts : List String) :
    (es.foldl contentStep (n, ts)).1 = n + (es.filter entryMatches).length := by
  induction es generalizing n ts with
  | nil => simp
  | cons e es ih =>
    by_cases he : entryMatches e
    · simp [contentStep, he, ih]; omega
    · simp [contentStep, he, ih]

/-! ## Claims -/

/-- C1: for every validations mapping in which at least one of the three
critical checks (url_format, accessibility, structure) has passed=false,
`determine_overall_status` returns overall_status="fail" with
labels=["validation-failed"] and exactly one recommendation, regardless of
the duplicate result or the content python_score. -/
theorem c1_critical_failure_short_circuit (v : Validations)
    (h : (v.url_format.getD {}).passed = some false ∨
         (v.accessibility.getD {}).passed = some false ∨
         (v.structure_check.getD {}).passed = some false) :
    determine_overall_status v =
      ("fail", ["validation-failed"],
       ["Please fix the critical errors above before resubmitting"]) := by
  have hc : has_critical_failure v = true := by
    rcases h with h | h | h <;> simp [has_critical_failure, getPassed, h]
  simp [determine_overall_status, hc]

/-- C1 witness: a mapping whose structure check failed while the content
score is 100 and the duplicate check is clean. -/
theorem c1_witness :
    determine_overall_status
      { url_format := some { passed := some true }
        accessibility := some { passed := some true }
        structure_check := some { passed := some false }
        duplicate := some { passed := some true, is_duplicate := some false }
        content := some { python_score := some 100 } } =
      ("fail", ["validation-failed"],
       ["Please fix the critical errors above before resubmitting"]) :=
  c1_critical_failure_short_circuit _ (Or.inr (Or.inr (by decide)))

/-- C6: duplicate detection only sees feed URLs through `normalize_url`
(lowercasing plus stripping one trailing slash), so two URLs with the same
normal form are classified identically against any registry. -/
theorem c6_duplicate_check_normalizes (u1 u2 : String)
    (config : List ConfigSection) (request_type : String)
    (old_url : Option String)
    (h : normalize_url u1 = normalize_url u2) :
    check_duplicate_in_config u1 config request_type old_url =
      check_duplicate_in_config u2 config request_type old_url := by
  simp only [check_duplicate_in_config, h]

/-- C6 witness: `HTTP://Foo.com/Feed/` and `http://foo.com/feed` receive the
same classification, namely as a duplicate of the registered entry. -/
theorem c6_witness :
    check_duplicate_in_config "HTTP://Foo.com/Feed/"
        [("http://foo.com/feed", some "Foo Blog")] "Add new feed" none =
      check_duplicate_in_config "http://foo.com/feed"
        [("http://foo.com/feed", some "Foo Blog")] "Add new feed" none ∧
    check_duplicate_in_config "HTTP://Foo.com/Feed/"
        [("http://foo.com/feed", some "Foo Blog")] "Add new feed" none =
      (false, true, some "Foo Blog", "Feed already exists as \x27Foo Blog\x27") :=
  ⟨c6_duplicate_check_normalizes _ _ _ _ _ (by decide), by decide⟩

/-- C10: `analyze_feed_content` never divides by zero: with a parseable feed,
an empty sampled entry list returns early with score 0 and a warning, and
the division is only reached with a positive number of sampled entries. -/
theorem c10_no_division_by_zero (feed : Feed) (sample_size : Nat)
    (hb : feed.bozo = false) (he : feed.entries ≠ none) :
    ((feed.entries.getD []).take sample_size = [] →
      analyze_feed_content feed sample_size =
        (0, feedLanguage feed, [], ["Feed has no entries to analyze"])) ∧
    ((feed.entries.getD []).take sample_size ≠ [] →
      0 < ((feed.entries.getD []).take sample_size).length ∧
      (analyze_feed_content feed sample_size).1 =
        (((feed.entries.getD []).take sample_size).filter entryMatches).length
          * 100 / ((feed.entries.getD []).take sample_size).length) := by
  constructor
  · intro hnil
    simp [analyze_feed_content, hb, he, hnil]
  · intro hne
    refine ⟨List.length_pos.mpr hne, ?_⟩
    simp [analyze_feed_content, hb, he, hne, foldl_contentStep_count]

/-- C10 witness: a well-formed feed with no entries yields score 0 and the
no-entries warning. -/
theorem c10_witness :
    analyze_feed_content { bozo := false, version := some "rss20", entries := some [] } 10 =
      (0, feedLanguage { bozo := false, version := some "rss20", entries := some [] },
       [], ["Feed has no entries to analyze"]) :=
  (c10_no_division_by_zero _ 10 (by decide) (by decide)).1 (by decide)

/-- The content score as the claim words it: nearest-integer rounding of
`matched / sampled × 100` (claim refinement reference, not from the
source). -/
def round_score (matched sampled : Nat) : Nat :=
  (200 * matched + sampled) / (2 * sampled)

/-- A feed with 3 entries of which exactly 2 mention a Python keyword. -/
def c2Feed : Feed :=
  { bozo := false
    version := some "rss20"
    entries := some [{ title := "Python tips" }, { title := "More python" },
                     { title := "Gardening" }] }

/-- C2 counterexample: with 2 keyword matches out of 3 sampled entries the
code computes `int((2/3)*100) = 66` (truncation), while nearest-integer
rounding of `2/3 × 100` is 67, so the claimed formula does not hold. -/
theorem c2_counterexample :
    ((c2Feed.entries.getD []).take 10).length = 3 ∧
    (((c2Feed.entries.getD []).take 10).filter entryMatches).length = 2 ∧
    (analyze_feed_content c2Feed 10).1 = 66 ∧
    round_score 2 3 = 67 ∧ (66 : Nat) ≠ 67 := by decide

/-- C2 amended: for every sampled entry list of length n > 0 with m
keyword-matching entries, the content relevance score computed by
`analyze_feed_content` (at the sample size 10 used by the pipeline) equals
⌊m / n × 100⌋, the percentage truncated toward zero, not rounded to
nearest. -/
theorem c2_score_is_truncated_percentage (feed : Feed)
    (hb : feed.bozo = false) (he : feed.entries ≠ none)
    (hne : (feed.entries.getD []).take 10 ≠ []) :
    (analyze_feed_content feed 10).1 =
      (((feed.entries.getD []).take 10).filter entryMatches).length * 100 /
        ((feed.entries.getD []).take 10).length := by
  simp [analyze_feed_content, hb, he, hne, foldl_contentStep_count]

/-- C2 witness: on the 3-entry feed with 2 matches the amended formula
evaluates to 66. -/
theorem c2_witness :
    (analyze_feed_content c2Feed 10).1 =
      (((c2Feed.entries.getD []).take 10).filter entryMatches).length * 100 /
        ((c2Feed.entries.getD []).take 10).length :=
  c2_score_is_truncated_percentage c2Feed (by decide) (by decide) (by decide)

/-- If no non-`Planet` section normalizes to the probed URL, the duplicate
scan finds nothing. -/
theorem scanSections_eq_none (request_type normalized_new : String)
    (config : List ConfigSection)
    (h : ∀ sec ∈ config, sec.1 = "Planet" ∨ normalize_url sec.1 ≠ normalized_new) :
    scanSections request_type normalized_new config = none := by
  induction config with
  | nil => rfl
  | cons sec rest ih =>
    rcases h sec (List.mem_cons_self sec rest) with hp | hn
    · simp [scanSections, hp, ih fun s hs => h s (List.mem_cons_of_mem sec hs)]
    · by_cases hpl : sec.1 = "Planet"
      · simp [scanSections, hpl, ih fun s hs => h s (List.mem_cons_of_mem sec hs)]
      · simp [scanSections, hpl, hn, ih fun s hs => h s (List.mem_cons_of_mem sec hs)]

/-- C3 counterexample: registry containing the new URL, an edit request, and
an old URL absent from the registry.  The old URL is indeed absent, yet
`check_duplicate_in_config` returns passed=true (the match on the new URL
returns before the old URL is ever checked), contradicting the claimed
passed=false. -/
theorem c3_counterexample :
    (([("https://example.com/feed", some "Example Blog")] :
        List ConfigSection).any fun sec =>
          sec.1 ≠ "Planet" &&
          normalize_url sec.1 = normalize_url "https://old.example.com/feed") = false ∧
    check_duplicate_in_config "https://example.com/feed"
        [("https://example.com/feed", some "Example Blog")]
        "Edit existing feed" (some "https://old.example.com/feed") =
      (true, true, some "Example Blog",
       "Feed exists as \x27Example Blog\x27 (OK for edit)") := by decide

/-- C3 amended: for an edit request with a supplied old URL, when the old
URL is absent from the registry AND the new URL does not match any registry
entry either, `check_duplicate_in_config` returns passed=false with the
old-URL-not-found message.  (When the new URL does match, the function
returns at that match and never inspects the old URL.) -/
theorem c3_edit_missing_old_url (url : String) (config : List ConfigSection)
    (request_type : String) (old : String)
    (hedit : isEditRequest request_type = true) (hold : old ≠ "")
    (hnew : ∀ sec ∈ config, sec.1 = "Planet" ∨
      normalize_url sec.1 ≠ normalize_url url)
    (holdm : ∀ sec ∈ config, sec.1 = "Planet" ∨
      normalize_url sec.1 ≠ normalize_url old) :
    check_duplicate_in_config url config request_type (some old) =
      (false, false, none,
       "Old feed URL \x27" ++ old ++ "\x27 not found in config") := by
  have hscan := scanSections_eq_none request_type (normalize_url url) config hnew
  simp [check_duplicate_in_config, hscan, hedit, hold]
  exact fun a b hab hpl => (holdm (a, b) hab).resolve_left hpl

/-- C3 witness: an edit request whose old URL is missing from a registry
that does not contain the new URL either fails with the specific message. -/
theorem c3_witness :
    check_duplicate_in_config "https://b.example.com/feed"
        [("https://a.example.com/feed", some "A Blog")]
        "Edit existing feed" (some "https://c.example.com/feed") =
      (false, false, none,
       "Old feed URL \x27https://c.example.com/feed\x27 not found in config") :=
  c3_edit_missing_old_url _ _ _ _ (by decide) (by decide) (by decide) (by decide)

/-- C5: the labels produced by `determine_overall_status` never contain both
"duplicate-feed" and "validation-failed"; with a duplicate and no critical
failure, "duplicate-feed" coexists with "validation-warning" when the
content score is below 60, and is the only label when the score is at
least 60 ("validation-passed" is not added). -/
theorem c5_duplicate_label_coexistence (v : Validations) :
    (¬ ("duplicate-feed" ∈ (determine_overall_status v).2.1 ∧
        "validation-failed" ∈ (determine_overall_status v).2.1)) ∧
    (has_critical_failure v = false → getIsDuplicate v = true →
      getPythonScore v < 60 →
      (determine_overall_status v).2.1 = ["duplicate-feed", "validation-warning"]) ∧
    (has_critical_failure v = false → getIsDuplicate v = true →
      60 ≤ getPythonScore v →
      (determine_overall_status v).2.1 = ["duplicate-feed"]) := by
  by_cases hc : has_critical_failure v = true
  · refine ⟨?_, ?_, ?_⟩
    · simp [determine_overall_status, hc]
    · intro h; simp [h] at hc
    · intro h; simp [h] at hc
  · rw [Bool.not_eq_true] at hc
    by_cases hd : getIsDuplicate v = true
    · rcases Nat.lt_or_ge (getPythonScore v) 30 with h1 | h1
      · refine ⟨?_, ?_, ?_⟩
        · simp [determine_overall_status, hc, hd, h1]
        · intro _ _ _; simp [determine_overall_status, hc, hd, h1]
        · intro _ _ h2; omega
      · have h1n : ¬ getPythonScore v < 30 := Nat.not_lt.mpr h1
        rcases Nat.lt_or_ge (getPythonScore v) 60 with h2 | h2
        · refine ⟨?_, ?_, ?_⟩
          · simp [determine_overall_status, hc, hd, h1n, h2]
          · intro _ _ _; simp [determine_overall_status, hc, hd, h1n, h2]
          · intro _ _ h3; omega
        · have h2n : ¬ getPythonScore v < 60 := Nat.not_lt.mpr h2
          refine ⟨?_, ?_, ?_⟩
          · simp [determine_overall_status, hc, hd, h1n, h2n]
          · intro _ _ h3; omega
          · intro _ _ _; simp [determine_overall_status, hc, hd, h1n, h2n]
    · rw [Bool.not_eq_true] at hd
      refine ⟨?_, ?_, ?_⟩
      · rcases Nat.lt_or_ge (getPythonScore v) 30 with h1 | h1
        · simp [determine_overall_status, hc, hd, h1]
        · have h1n : ¬ getPythonScore v < 30 := Nat.not_lt.mpr h1
          rcases Nat.lt_or_ge (getPythonScore v) 60 with h2 | h2
          · simp [determine_overall_status, hc, hd, h1n, h2]
          · have h2n : ¬ getPythonScore v < 60 := Nat.not_lt.mpr h2
            simp [determine_overall_status, hc, hd, h1n, h2n]
      · intro _ h; simp [h] at hd
      · intro _ h; simp [h] at hd

/-- C5 witness: duplicate detected, all critical checks passed, content
score 100: the labels are exactly ["duplicate-feed"]. -/
theorem c5_witness :
    determine_overall_status
      { url_format := some { passed := some true }
        accessibility := some { passed := some true }
        structure_check := some { passed := some true }
        duplicate := some { passed := some true, is_duplicate := some true }
        content := some { python_score := some 100 } } |>.2.1 =
      ["duplicate-feed"] :=
  (c5_duplicate_label_coexistence _).2.2 (by decide) (by decide) (by decide)

/-- When no edit is requested, any registry match makes the duplicate scan
return a failed duplicate at the first matching section. -/
theorem scanSections_first_match_not_edit (request_type normalized_new : String)
    (config : List ConfigSection)
    (hedit : isEditRequest request_type = false)
    (hmatch : ∃ sec ∈ config, sec.1 ≠ "Planet" ∧
      normalize_url sec.1 = normalized_new) :
    ∃ name, scanSections request_type normalized_new config =
      some (false, true, some name,
        "Feed already exists as \x27" ++ name ++ "\x27") := by
  induction config with
  | nil => simp at hmatch
  | cons sec rest ih =>
    by_cases hpl : sec.1 = "Planet"
    · rcases hmatch with ⟨s, hs, hnp, hnn⟩
      rcases List.mem_cons.mp hs with rfl | hs'
      · exact absurd hpl hnp
      · rcases ih ⟨s, hs', hnp, hnn⟩ with ⟨name, hname⟩
        exact ⟨name, by simpa [scanSections, hpl] using hname⟩
    · by_cases hnn : normalize_url sec.1 = normalized_new
      · exact ⟨sec.2.getD "Unknown", by simp [scanSections, hpl, hnn, hedit]⟩
      · rcases hmatch with ⟨s, hs, hshp, hsnn⟩
        rcases List.mem_cons.mp hs with rfl | hs'
        · exact absurd hsnn hnn
        · rcases ih ⟨s, hs', hshp, hsnn⟩ with ⟨name, hname⟩
          exact ⟨name, by simpa [scanSections, hpl, hnn] using hname⟩

/-- C9: a submission without a request-type field gets the default
"Add new feed", so a feed URL that matches a registry entry is recorded as
a failed duplicate (passed=false, is_duplicate=true), never as an
acceptable edit. -/
theorem c9_missing_request_type_defaults_to_add (d : IssueData) (w : World)
    (u : String) (hreq : d.request_type = none) (hu : d.feed_url = some u)
    (hne : u ≠ "")
    (hmatch : ∃ sec ∈ w.config, sec.1 ≠ "Planet" ∧
      normalize_url sec.1 = normalize_url u) :
    (buildResult d w).request_type = "Add new feed" ∧
    ((buildResult d w).validations.duplicate.getD {}).passed = some false ∧
    ((buildResult d w).validations.duplicate.getD {}).is_duplicate = some true := by
  obtain ⟨name, hscan⟩ := scanSections_first_match_not_edit "Add new feed"
    (normalize_url u) w.config (by decide) hmatch
  have hdup : check_duplicate_in_config u w.config "Add new feed" d.old_url =
      (false, true, some name,
       "Feed already exists as \x27" ++ name ++ "\x27") := by
    simp [check_duplicate_in_config, hscan]
  simp [buildResult, hreq, hu, hne, hdup]

/-- Submission used by the C9 witness: no request-type field. -/
def c9Data : IssueData := { feed_url := some "https://known.example.com/feed" }

/-- Oracle world used by the C9 witness: the submitted URL is already
registered. -/
def c9World : World :=
  { urlparse := .ok "https" "known.example.com"
    http := .response 200 "https://known.example.com/feed"
    structFeed := { version := some "rss20", entries := some [{ title := "python" }] }
    config := [("https://known.example.com/feed", some "Known Blog")]
    contentFeed := { version := some "rss20", entries := some [{ title := "python" }] } }

/-- C9 witness: the registered URL without a request-type field yields the
default request type and a failed duplicate. -/
theorem c9_witness :
    (buildResult c9Data c9World).request_type = "Add new feed" ∧
    ((buildResult c9Data c9World).validations.duplicate.getD {}).passed = some false ∧
    ((buildResult c9Data c9World).validations.duplicate.getD {}).is_duplicate = some true :=
  c9_missing_request_type_defaults_to_add c9Data c9World
    "https://known.example.com/feed" (by decide) (by decide) (by decide)
    ⟨("https://known.example.com/feed", some "Known Blog"),
     by decide, by decide, by decide⟩

/-- World used by the C4 counterexample: `urlparse` reports the unsupported
scheme `ftp`. -/
def c4World : World :=
  { urlparse := .ok "ftp" "example.com"
    http := .connectionError
    structFeed := {}
    config := []
    contentFeed := {} }

/-- C4 counterexample: a submission without a feed URL produces a
validations mapping holding only the `parsing` key (none of the five claimed
keys), and for a submission whose URL format fails, the skipped content
check carries no `passed` field at all. -/
theorem c4_counterexample :
    (buildResult {} c4World).validations.url_format = none ∧
    (buildResult {} c4World).validations.content = none ∧
    (buildResult { feed_url := some "ftp://example.com/feed" }
        c4World).validations.content =
      some { python_score := some 0,
             warnings := some ["Skipped (feed structure invalid)"] } ∧
    ((buildResult { feed_url := some "ftp://example.com/feed" }
        c4World).validations.content.getD {}).passed = none := by decide

/-- C4 amended: for every submission with a non-empty extracted feed URL,
the validations mapping contains all five keys; skipped accessibility and
structure checks are recorded with passed=false, while a skipped content
check is recorded with python_score=0 and a skip warning (it has no
`passed` field). -/
theorem c4_all_five_keys_present (d : IssueData) (w : World)
    (hne : d.feed_url.getD "" ≠ "") :
    ((buildResult d w).validations.url_format).isSome = true ∧
    ((buildResult d w).validations.accessibility).isSome = true ∧
    ((buildResult d w).validations.structure_check).isSome = true ∧
    ((buildResult d w).validations.duplicate).isSome = true ∧
    ((buildResult d w).validations.content).isSome = true ∧
    (getPassed (buildResult d w).validations.url_format = false →
      (buildResult d w).validations.accessibility =
        some { passed := some false, status_code := some 0,
               message := some "Skipped (invalid URL format)" }) ∧
    (getPassed (buildResult d w).validations.accessibility = false →
      (buildResult d w).validations.structure_check =
        some { passed := some false,
               message := some "Skipped (feed not accessible)" }) ∧
    (getPassed (buildResult d w).validations.structure_check = false →
      (buildResult d w).validations.content =
        some { python_score := some 0,
               warnings := some ["Skipped (feed structure invalid)"] }) := by
  by_cases hv : (validate_url_format w.urlparse).1 = true
  · by_cases ha : (check_feed_accessibility (d.feed_url.getD "") 10 w.http).1 = true
    · by_cases hs : (validate_feed_structure w.structFeed).1 = true
      · simp [buildResult, hne, getPassed, hv, ha, hs]
      · rw [Bool.not_eq_true] at hs
        simp [buildResult, hne, getPassed, hv, ha, hs]
    · rw [Bool.not_eq_true] at ha
      simp [buildResult, hne, getPassed, hv, ha]
  · rw [Bool.not_eq_true] at hv
    simp [buildResult, hne, getPassed, hv]

/-- C4 witness: with an invalid URL format all five keys are present and
the content check is the skipped record. -/
theorem c4_witness :
    (buildResult { feed_url := some "ftp://example.com/feed" }
        c4World).validations.accessibility =
      some { passed := some false, status_code := some 0,
             message := some "Skipped (invalid URL format)" } :=
  (c4_all_five_keys_present { feed_url := some "ftp://example.com/feed" }
    c4World (by decide)).2.2.2.2.2.1 (by decide)

/-- C8 counterexample: invoking the formatting stage without its required
CLI arguments terminates with argparse's exit status 2, not the claimed 1
(CPython `ArgumentParser.error` calls `sys.exit(2)`). -/
theorem c8_counterexample :
    format_comment_run false .fileNotFound true = 2 ∧ (2 : Nat) ≠ 1 := by decide

/-- C8 amended: every stage exits 0 when it completes its requested work,
even when overall_status is "fail" or "warning"; it exits 1 on I/O errors
and malformed JSON input; on missing required CLI arguments the
argparse-based validation and formatting stages exit 2 while the labels
stage exits 1. -/
theorem c8_exit_codes :
    (∀ d w, (validate_feed_run true d w true).1 = 0) ∧
    (∀ d w, (validate_feed_run true d w false).1 = 1) ∧
    (∀ d w ok, (validate_feed_run false d w ok).1 = 2) ∧
    (∀ r, format_comment_run true (.ok r) true = 0) ∧
    (∀ r, format_comment_run true (.ok r) false = 1) ∧
    format_comment_run true .fileNotFound true = 1 ∧
    format_comment_run true .invalidJson true = 1 ∧
    (∀ read ok, format_comment_run false read ok = 2) ∧
    (∀ argv read, argv.length < 2 → (get_labels_run argv read).1 = 1) ∧
    (∀ argv r, 2 ≤ argv.length → (get_labels_run argv (.ok r)).1 = 0) ∧
    (∀ argv, 2 ≤ argv.length → (get_labels_run argv .fileNotFound).1 = 1) ∧
    (∀ argv, 2 ≤ argv.length → (get_labels_run argv .invalidJson).1 = 1) := by
  refine ⟨fun d w => rfl, fun d w => rfl, fun d w ok => rfl,
    fun r => rfl, fun r => rfl, rfl, rfl, fun read ok => rfl,
    ?_, ?_, ?_, ?_⟩
  · intro argv read h
    simp [get_labels_run, h]
  · intro argv r h
    have hn : ¬ argv.length < 2 := Nat.not_lt.mpr h
    by_cases hl : r.labels = [] <;> simp [get_labels_run, hn, hl]
  · intro argv h
    simp [get_labels_run, Nat.not_lt.mpr h]
  · intro argv h
    simp [get_labels_run, Nat.not_lt.mpr h]

/-- C8 witness: a validation run whose outcome is a critical failure still
exits 0, and a missing labels-stage argument exits 1. -/
theorem c8_witness :
    (validate_feed_run true { feed_url := some "gopher://example.com/feed" }
      { urlparse := .ok "gopher" "example.com", http := .connectionError,
        structFeed := {}, config := [], contentFeed := {} } true).1 = 0 ∧
    (get_labels_run ["get_labels.py"] .fileNotFound).1 = 1 :=
  ⟨c8_exit_codes.1 _ _,
   c8_exit_codes.2.2.2.2.2.2.2.2.1 _ _ (by decide)⟩

/-! ## Sample-titles section helpers (claim C7)

The sample-titles section starts with `sampleHeader`, whose first two
characters are a newline and `#`.  No other piece appended by
`generate_comment` starts that way: every other piece starts either with a
character other than a newline, or with a newline followed by `-` or `*`. -/

/-- A string whose character list is non-empty and does not start with a
newline; no such string starts with the sample-titles header. -/
def SafeHead (s : String) : Prop :=
  s.data ≠ [] ∧ s.data.head? ≠ some '\n'

theorem SafeHead.append {s : String} (h : SafeHead s) (t : String) :
    SafeHead (s ++ t) := by
  refine ⟨?_, ?_⟩
  · rw [String.data_append]
    exact fun hh => h.1 (List.append_eq_nil.mp hh).1
  · rw [String.data_append, List.head?_append_of_ne_nil _ h.1]
    exact h.2

theorem safeHead_of (s : String) (h1 : s.data ≠ [])
    (h2 : s.data.head? ≠ some '\n') : SafeHead s := ⟨h1, h2⟩

theorem SafeHead.notSampleStart {s : String} (h : SafeHead s) :
    ¬ sampleHeader.data <+: s.data := by
  rintro ⟨t, ht⟩
  apply h.2
  rw [← ht]
  rfl

/-- A piece whose first two characters are a newline and a character other
than `#` does not start with the sample-titles header either. -/
theorem notSampleStart_of_take_two {s : String} {c : Char}
    (h : s.data.take 2 = ['\n', c]) (hc : c ≠ '#') :
    ¬ sampleHeader.data <+: s.data := by
  rintro ⟨t, ht⟩
  apply hc
  have h2 : (['\n', '#'] : List Char) = ['\n', c] := by
    rw [← h, ← ht]
    rfl
  injection h2 with _ h3
  injection h3 with h4 _
  exact h4.symm

theorem get_emoji_safe (a b : Bool) : SafeHead (get_emoji a b) := by
  cases a <;> cases b <;> exact ⟨by decide, by decide⟩

theorem format_url_validation_safe (v : VResult) :
    SafeHead (format_url_validation v) := by
  unfold format_url_validation
  exact (get_emoji_safe _ _).append _ |>.append _

theorem format_accessibility_validation_safe (v : VResult) :
    SafeHead (format_accessibility_validation v) := by
  simp only [format_accessibility_validation]
  split
  · exact ((((get_emoji_safe _ _).append _).append _).append _).append _ |>.append _
  · exact (get_emoji_safe _ _).append _ |>.append _

theorem format_structure_validation_safe (v : VResult) :
    SafeHead (format_structure_validation v) := by
  simp only [format_structure_validation]
  split
  · exact ((((get_emoji_safe _ _).append _).append _).append _).append _ |>.append _
  · exact (get_emoji_safe _ _).append _ |>.append _

theorem format_duplicate_validation_safe (v : VResult) :
    SafeHead (format_duplicate_validation v) := by
  simp only [format_duplicate_validation]
  split
  · exact ((get_emoji_safe _ _).append _).append _ |>.append _
  · exact (get_emoji_safe _ _).append _ |>.append _

theorem format_content_validation_safe (v : VResult) :
    SafeHead (format_content_validation v) := by
  simp only [format_content_validation]
  have he : SafeHead (if v.python_score.getD 0 ≥ 60 then "✅" else "⚠️") := by
    split <;> exact ⟨by decide, by decide⟩
  split
  · exact ((((he.append _).append _).append _).append _).append _ |>.append _
  · exact (((he.append _).append _).append _).append _ |>.append _

theorem format_recommendations_notSampleStart (recs : List String) :
    ¬ sampleHeader.data <+: (format_recommendations recs).data := by
  unfold format_recommendations
  split
  · decide
  · exact ((safeHead_of "### 💡 Recommendations\n\n" (by decide) (by decide)).append
      _ |>.append _).notSampleStart

/-- Membership in a conditional singleton collapses to equality. -/
theorem mem_if_singleton {α : Type} {p x : α} {c : Prop} [Decidable c]
    (h : p ∈ (if c then [x] else [])) : p = x := by
  by_cases hc : c
  · rw [if_pos hc] at h
    exact List.mem_singleton.mp h
  · rw [if_neg hc] at h
    exact absurd h (List.not_mem_nil p)

/-- Membership in the per-check match segments of the pieces list. -/
theorem mem_match_piece {f : VResult → String} {o : Option VResult} {p : String}
    (h : p ∈ (match o with
               | some v => [f v]
               | none => ([] : List String))) :
    ∃ v, p = f v := by
  cases o with
  | none => exact absurd h (List.not_mem_nil p)
  | some v => exact ⟨v, List.mem_singleton.mp h⟩

/-- Membership in the three-way next-steps conditional. -/
theorem mem_ite_ite {α : Type} {p : α} {c1 c2 : Prop} [Decidable c1]
    [Decidable c2] {l1 l2 l3 : List α}
    (h : p ∈ if c1 then l1 else if c2 then l2 else l3) :
    p ∈ l1 ∨ p ∈ l2 ∨ p ∈ l3 := by
  by_cases h1 : c1
  · rw [if_pos h1] at h
    exact Or.inl h
  · rw [if_neg h1] at h
    by_cases h2 : c2
    · rw [if_pos h2] at h
      exact Or.inr (Or.inl h)
    · rw [if_neg h2] at h
      exact Or.inr (Or.inr h)

/-- A non-empty title list makes `format_sample_titles` start with the
header. -/
theorem sample_prefix_of_titles {ts : List String} (h : ¬ ts = []) :
    sampleHeader.data <+: (format_sample_titles ts).data := by
  rw [format_sample_titles, if_neg h, String.data_append]
  exact List.prefix_append _ _

theorem sample_lines_le_five (titles : List String) :
    (sample_lines titles).length ≤ 5 := by
  unfold sample_lines
  rw [List.length_map, List.enumFrom_length, List.length_take]
  exact min_le_left _ _

/-- C7: the rendered report contains the sample-titles section (a piece
starting with the section header) exactly when the content validation
recorded at least one sample title and the overall status is not "fail";
the section lists at most 5 titles. -/
theorem c7_sample_titles_section (r : AggregateResult) :
    ((∃ p ∈ generate_comment_pieces r, sampleHeader.data <+: p.data) ↔
      (((r.validations.content.getD {}).sample_titles).getD [] ≠ [] ∧
        r.overall_status ≠ "fail")) ∧
    (sample_lines (((r.validations.content.getD {}).sample_titles).getD [])).length ≤ 5 := by
  refine ⟨⟨?_, ?_⟩, sample_lines_le_five _⟩
  · rintro ⟨p, hp, hpre⟩
    by_contra hcond
    simp only [generate_comment_pieces] at hp
    rw [if_neg hcond] at hp
    simp only [List.mem_append] at hp
    rcases hp with ((((((((((hp | hp) | hp) | hp) | hp) | hp) | hp) | hp) | hp) | hp) | hp) | hp
    · simp only [List.mem_cons, List.not_mem_nil, or_false] at hp
      rcases hp with rfl | rfl | rfl | rfl | rfl
      · exact absurd hpre (by decide)
      · exact (((safeHead_of "**Feed URL:** `" (by decide) (by decide)).append
          _).append _).notSampleStart hpre
      · exact (((safeHead_of "**Feed Name:** " (by decide) (by decide)).append
          _).append _).notSampleStart hpre
      · exact (((safeHead_of "**Request Type:** " (by decide) (by decide)).append
          _).append _).notSampleStart hpre
      · exact absurd hpre (by decide)
    · obtain ⟨v, rfl⟩ := mem_match_piece hp
      exact ((format_url_validation_safe v).append _).notSampleStart hpre
    · obtain ⟨v, rfl⟩ := mem_match_piece hp
      exact ((format_accessibility_validation_safe v).append _).notSampleStart hpre
    · obtain ⟨v, rfl⟩ := mem_match_piece hp
      exact ((format_structure_validation_safe v).append _).notSampleStart hpre
    · obtain ⟨v, rfl⟩ := mem_match_piece hp
      exact ((format_duplicate_validation_safe v).append _).notSampleStart hpre
    · obtain ⟨v, rfl⟩ := mem_match_piece hp
      exact ((format_content_validation_safe v).append _).notSampleStart hpre
    · simp only [List.mem_cons, List.not_mem_nil, or_false] at hp
      rcases hp with rfl | rfl
      · exact absurd hpre (by decide)
      · exact ((((safeHead_of "### " (by decide) (by decide)).append _).append
          _).append _ |>.append _).notSampleStart hpre
    · have := mem_if_singleton hp
      subst this
      exact format_recommendations_notSampleStart _ hpre
    · exact absurd hp (List.not_mem_nil p)
    · simp only [List.mem_cons, List.not_mem_nil, or_false] at hp
      rcases hp with rfl | rfl
      · exact absurd hpre (by decide)
      · exact absurd hpre (by decide)
    · rcases mem_ite_ite hp with h | h | h
      · simp only [List.mem_cons, List.not_mem_nil, or_false] at h
        subst h
        exact absurd hpre (by decide)
      · simp only [List.mem_cons, List.not_mem_nil, or_false] at h
        rcases h with rfl | rfl
        · exact absurd hpre (by decide)
        · exact absurd hpre (by decide)
      · simp only [List.mem_cons, List.not_mem_nil, or_false] at h
        rcases h with rfl | rfl
        · exact absurd hpre (by decide)
        · exact absurd hpre (by decide)
    · simp only [List.mem_cons, List.not_mem_nil, or_false] at hp
      rcases hp with rfl | rfl | rfl | rfl
      · refine notSampleStart_of_take_two (c := '*') ?_ (by decide) hpre
        rw [String.data_append, String.data_append]
        rfl
      · exact absurd hpre (by decide)
      · exact (((safeHead_of "*🤖 Automated validation • Labels: `"
          (by decide) (by decide)).append _).append _).notSampleStart hpre
      · exact absurd hpre (by decide)
  · rintro ⟨hts, hst⟩
    refine ⟨format_sample_titles
      (((r.validations.content.getD {}).sample_titles).getD []), ?_,
      sample_prefix_of_titles hts⟩
    simp only [generate_comment_pieces]
    rw [if_pos (And.intro hts hst)]
    simp [List.mem_append]

/-- Aggregate result used by the C7 witness: a passing validation with one
recorded sample title. -/
def c7Result : AggregateResult :=
  { feed_url := "https://example.com/feed.xml"
    feed_name := "Example"
    request_type := "Add new feed"
    validations :=
      { url_format := some { passed := some true, message := some "Valid URL format" }
        accessibility := some { passed := some true, status_code := some 200,
                                message := some "Feed accessible" }
        structure_check := some { passed := some true, entries := some 3,
                                  message := some "Valid RSS 2.0 feed" }
        duplicate := some { passed := some true, is_duplicate := some false,
                            message := some "No duplicate found" }
        content := some { python_score := some 80,
                          sample_titles := some ["Python tips"],
                          warnings := some [] } }
    overall_status := "pass"
    labels := ["validation-passed"]
    recommendations := [] }

/-- C7 witness: the passing result with one title shows the section, with at
most five listed titles. -/
theorem c7_witness :
    (∃ p ∈ generate_comment_pieces c7Result, sampleHeader.data <+: p.data) ∧
    (sample_lines (((c7Result.validations.content.getD {}).sample_titles).getD [])).length ≤ 5 :=
  ⟨(c7_sample_titles_section c7Result).1.mpr ⟨by decide, by decide⟩,
   (c7_sample_titles_section c7Result).2⟩

end Planet
